import Mathlib

/-!
# Verification of the tangenai recommendation-scoring pipeline

Shallow embedding of the recommendation-scoring core of the repository:

* the lexicon sentiment analyzer (`analyzeSentiment`, `analyzeArticles`),
* the market-statistics reduction (`calculateVolatility`, `processStockData`,
  `fetchStockData`),
* the scoring engine (component normalization, horizon weights, rounding),
* the TTL cache (`storeCache`, `getCache`),
* the batch orchestrator `getStockRecommendation`, in its two revisions
  present in the repository: the one imported by the app
  (`src/app/services/stockService.tsx`) and the richer revision kept in
  `src/unnamed/part_008` (which adds a social-post source, a
  neutral-sentiment fallback for total signal starvation, and a batch-level
  error when no company succeeds).

JavaScript numbers are modelled as exact rationals (`ℚ`); the only real
number used is the annualized volatility, whose formula takes a square
root.  Asynchronous functions are modelled as pure functions of an
explicit environment that records what each external fetch would return;
the orchestrator additionally returns the number of fetch-helper
invocations it performs, so that "no network calls" is expressible.
-/

/-! ## Sentiment analyzer (src/app/services/stockService.tsx lines 14-251) -/

/-- The fixed positive lexicon `POSITIVE_WORDS`. -/
def POSITIVE_WORDS : List String :=
  ["increase", "profit", "growth", "gain", "positive", "up", "high",
   "rising", "success", "strong", "better", "improved", "growing", "good",
   "promising"]

/-- The fixed negative lexicon `NEGATIVE_WORDS`. -/
def NEGATIVE_WORDS : List String :=
  ["decrease", "loss", "decline", "down", "negative", "low", "falling",
   "fail", "weak", "worse", "reduced", "poor", "bad", "risk"]

/-- JavaScript word characters (`\w` = `[A-Za-z0-9_]`); `split(/\W+/)`
separates on everything else. -/
def isWordChar (c : Char) : Bool := c.isAlphanum || c = '_'

/-- Split a character list at non-word characters, accumulating the
current (reversed) word.  Empty pieces arise between adjacent separators
where the JavaScript regex `\W+` collapses runs; empty pieces are in
neither lexicon, so hit counts agree. -/
def splitWordsAux : List Char → List Char → List String
  | [], acc => [String.mk acc.reverse]
  | c :: cs, acc =>
    if isWordChar c then splitWordsAux cs (c :: acc)
    else String.mk acc.reverse :: splitWordsAux cs []

/-- `text.toLowerCase().split(/\W+/)`. -/
def splitWords (text : String) : List String :=
  splitWordsAux (text.toList.map Char.toLower) []

/-- `SentimentAggregate`: the record shape produced by both
`analyzeSentiment` (per snippet) and `analyzeArticles` (aggregate). -/
structure Sentiment where
  score : ℚ
  positive : ℕ
  negative : ℕ
  neutral : ℕ
  total : ℕ
deriving Repr, DecidableEq

/-- Occurrences of positive-lexicon words in a snippet (the `positive++`
counter of `analyzeSentiment`). -/
def positiveHits (text : String) : ℕ :=
  ((splitWords text).filter (fun w => POSITIVE_WORDS.contains w)).length

/-- Occurrences of negative-lexicon words in a snippet (the `negative++`
counter of `analyzeSentiment`). -/
def negativeHits (text : String) : ℕ :=
  ((splitWords text).filter (fun w => NEGATIVE_WORDS.contains w)).length

/-- `analyzeSentiment` (stockService.tsx lines 203-225): classify one
snippet.  Zero lexicon hits give the neutral unit; otherwise
`score = positive / (positive + negative)` and the snippet lands in one
bucket according to `score > 0.6` / `score < 0.4` / otherwise. -/
def analyzeSentiment (text : String) : Sentiment :=
  let positive := positiveHits text
  let negative := negativeHits text
  let total := positive + negative
  if total = 0 then
    ⟨1/2, 0, 0, 1, 1⟩
  else
    let score : ℚ := (positive : ℚ) / (total : ℚ)
    ⟨score,
     if score > 3/5 then 1 else 0,
     if score < 2/5 then 1 else 0,
     if 2/5 ≤ score ∧ score ≤ 3/5 then 1 else 0,
     1⟩

/-- The `reduce` step of `analyzeArticles`: fieldwise sum of sentiment
records, starting from the all-zero accumulator. -/
def sumSentiments (l : List Sentiment) : Sentiment :=
  l.foldl
    (fun acc cur =>
      ⟨acc.score + cur.score, acc.positive + cur.positive,
       acc.negative + cur.negative, acc.neutral + cur.neutral,
       acc.total + cur.total⟩)
    ⟨0, 0, 0, 0, 0⟩

/-- `analyzeArticles` (stockService.tsx lines 227-251), cache-miss path
(the cache stores exactly this deterministic value, so the cache-hit path
returns the same record).  Note the empty-list early return yields
`neutral = 0, total = 0`. -/
def analyzeArticles (articles : List String) : Sentiment :=
  if articles.isEmpty then
    ⟨1/2, 0, 0, 0, 0⟩
  else
    let sentiments := articles.map analyzeSentiment
    let r := sumSentiments sentiments
    { r with score := r.score / (sentiments.length : ℚ) }

/-! ## Scoring engine (stockService.tsx lines 481-531)

The scoring code reads the statistics record and the sentiment aggregate
as plain numbers; `StockStats` is the record shape it consumes (in the
pipeline the volatility slot holds whatever number the market-data
fetcher produced). -/

/-- The `StockStatistics` record as consumed by the scoring engine. -/
structure StockStats where
  recent_growth : ℚ
  historical_growth : ℚ
  volatility : ℚ
  data_points : ℕ
deriving Repr, DecidableEq

/-- The four component scores (`components` object, lines 496-507). -/
structure Components where
  recent_performance : ℚ
  historical_growth : ℚ
  sentiment_score : ℚ
  risk_factor : ℚ
deriving Repr, DecidableEq

/-- The horizon-dependent weight profile (lines 509-522). -/
structure Weights where
  recent_performance : ℚ
  historical_growth : ℚ
  sentiment_score : ℚ
  risk_factor : ℚ
deriving Repr, DecidableEq

/-- `sentiment.total ? 50 + (positive/total - negative/total) * 50 : 50`
(lines 482-487). -/
def sentimentScoreOf (s : Sentiment) : ℚ :=
  if s.total ≠ 0 then
    50 + ((s.positive : ℚ) / (s.total : ℚ) - (s.negative : ℚ) / (s.total : ℚ)) * 50
  else 50

/-- The `components` object: `Math.min(Math.max(_, 0), 100)` clamps for
the two growth remaps, the sentiment score unchanged, and
`Math.max(0, volatility * 100)` for risk (lines 496-507). -/
def componentsOf (stats : StockStats) (sentimentScore : ℚ) : Components :=
  { recent_performance := min (max ((stats.recent_growth + 20) / 40 * 100) 0) 100
    historical_growth := min (max ((stats.historical_growth + 50) / 100 * 100) 0) 100
    sentiment_score := sentimentScore
    risk_factor := max 0 (stats.volatility * 100) }

/-- The `weights` object (lines 509-522). -/
def weightsFor (horizon : String) : Weights :=
  if horizon = "short-term" then
    { recent_performance := 0.4, historical_growth := 0.2
      sentiment_score := 0.3, risk_factor := 0.1 }
  else
    { recent_performance := 0.2, historical_growth := 0.4
      sentiment_score := 0.2, risk_factor := 0.2 }

/-- `Object.keys(weights).reduce((acc, key) => acc + components[key] *
weights[key], 0)` — the keys enumerate in insertion order (lines 524-527). -/
def weightedSum (c : Components) (w : Weights) : ℚ :=
  0 + c.recent_performance * w.recent_performance
    + c.historical_growth * w.historical_growth
    + c.sentiment_score * w.sentiment_score
    + c.risk_factor * w.risk_factor

/-- JavaScript `Math.round`: round half toward positive infinity. -/
def jsRound (x : ℚ) : ℤ := ⌊x + 1/2⌋

/-- `Math.round(score * 10) / 10` (line 531). -/
def roundTo1 (x : ℚ) : ℚ := (jsRound (x * 10) : ℚ) / 10

/-- The composite score as the pipeline computes it for one company. -/
def compositeScore (stats : StockStats) (s : Sentiment) (horizon : String) : ℚ :=
  roundTo1 (weightedSum (componentsOf stats (sentimentScoreOf s)) (weightsFor horizon))

/-! ## Market data fetcher (stockService.tsx lines 255-315) -/

/-- The record produced by `processStockData`.  Its volatility slot holds
the square-root formula and is the one real number in the development. -/
structure MarketStats where
  recent_growth : ℚ
  historical_growth : ℚ
  volatility : ℝ
  data_points : ℕ

/-- `prices.slice(1).map((p, i) => (p - prices[i]) / prices[i])`:
consecutive returns. -/
def returnsOf (prices : List ℚ) : List ℚ :=
  (prices.drop 1).zipWith (fun p q => (p - q) / q) prices

/-- `calculateVolatility` (lines 255-261): square root of the mean-based
variance of consecutive returns, times `Math.sqrt(252)`. -/
noncomputable def calculateVolatility (prices : List ℚ) : ℝ :=
  let returns := returnsOf prices
  let mean := returns.foldl (· + ·) 0 / (returns.length : ℚ)
  let variance :=
    returns.foldl (fun a b => a + (b - mean) ^ 2) 0 / (returns.length : ℚ)
  Real.sqrt (variance : ℝ) * Real.sqrt 252

/-- `processStockData` (lines 263-274).  Index accesses are modelled with
`getD _ 0`; every access is in range at the call site (which guarantees
`closes.length ≥ 5`). -/
noncomputable def processStockData (closes : List ℚ) : MarketStats :=
  let recentLookback := min 5 (closes.length - 1)
  { recent_growth :=
      (closes.getD (closes.length - 1) 0 /
        closes.getD (closes.length - recentLookback - 1) 0 - 1) * 100
    historical_growth :=
      (closes.getD (closes.length - 1) 0 / closes.getD 0 0 - 1) * 100
    volatility := calculateVolatility closes
    data_points := closes.length }

/-- `fetchStockData` (lines 278-315), cache-miss path, as a function of
the provider response.  `none` models a structurally invalid response
(missing `chart.result[0]` fields, an unparseable proxy wrapper, or a
network error); `some raw` gives the close series with `null` points as
`none`, which the source filters out before the length check. -/
noncomputable def fetchStockData (resp : Option (List (Option ℚ))) :
    Option MarketStats :=
  match resp with
  | none => none
  | some raw =>
    let closes := raw.filterMap id
    if closes.length < 5 then none
    else some (processStockData closes)

/-! Spec-side formulations of §4.2 of the spec, to be compared with the
source definitions above. -/

/-- Spec §4.2: population mean. -/
def specMean (l : List ℚ) : ℚ := l.sum / (l.length : ℚ)

/-- Spec §4.2: mean-based (population) variance, not sample-corrected. -/
def specVariance (l : List ℚ) : ℚ :=
  ((l.map (fun x => (x - specMean l) ^ 2)).sum) / (l.length : ℚ)

/-- Spec §4.2: population standard deviation. -/
noncomputable def popStdev (l : List ℚ) : ℝ := Real.sqrt ((specVariance l : ℚ) : ℝ)

/-- Spec §4.2: `volatility = stdev(r) * sqrt(252)` over consecutive
returns. -/
noncomputable def specVolatility (closes : List ℚ) : ℝ :=
  popStdev (returnsOf closes) * Real.sqrt 252

/-- Spec §4.2: `lookback = min(5, N - 1)`. -/
def specLookback (n : ℕ) : ℕ := min 5 (n - 1)

/-- Spec §4.2: `recentGrowth = (close[last] / close[last - lookback] - 1) * 100`. -/
def specRecentGrowth (closes : List ℚ) : ℚ :=
  (closes.getD (closes.length - 1) 0 /
    closes.getD (closes.length - 1 - specLookback closes.length) 0 - 1) * 100

/-- Spec §4.2: `historicalGrowth = (close[last] / close[0] - 1) * 100`. -/
def specHistoricalGrowth (closes : List ℚ) : ℚ :=
  (closes.getD (closes.length - 1) 0 / closes.getD 0 0 - 1) * 100

/-- Spec §4.2: the number of valid (non-null) closing prices. -/
def validCloseCount (raw : List (Option ℚ)) : ℕ :=
  (raw.filter (fun o => o.isSome)).length

theorem foldl_add_eq_sum (l : List ℚ) (a : ℚ) :
    l.foldl (· + ·) a = a + l.sum := by
  induction l generalizing a with
  | nil => simp
  | cons x xs ih => simp [ih, add_assoc]

theorem foldl_sq_eq_sum (m : ℚ) (l : List ℚ) (a : ℚ) :
    l.foldl (fun x b => x + (b - m) ^ 2) a =
      a + (l.map (fun b => (b - m) ^ 2)).sum := by
  induction l generalizing a with
  | nil => simp
  | cons x xs ih => simp [ih, add_assoc]

theorem calculateVolatility_eq_spec (prices : List ℚ) :
    calculateVolatility prices = specVolatility prices := by
  simp [calculateVolatility, specVolatility, popStdev, specVariance, specMean,
    foldl_add_eq_sum, foldl_sq_eq_sum]

theorem filterMap_id_length_eq_validCloseCount (raw : List (Option ℚ)) :
    (raw.filterMap id).length = validCloseCount raw := by
  induction raw with
  | nil => rfl
  | cons o os ih =>
    cases o <;> simp [validCloseCount, List.filter_cons] at ih ⊢ <;> omega

/-! ## Cache store (stockService.tsx lines 12 and 89-117) -/

/-- `CACHE_TTL = 5 * 60 * 1000` milliseconds. -/
def CACHE_TTL : ℤ := 5 * 60 * 1000

/-- One raw AsyncStorage entry: either the well-formed serialized wrapper
`{data, timestamp}` or bytes on which `JSON.parse` throws. -/
inductive StoredEntry (α : Type) where
  | wellFormed (data : α) (timestamp : ℤ)
  | malformed
deriving DecidableEq

/-- AsyncStorage as a key/value map. -/
def Storage (α : Type) := String → Option (StoredEntry α)

/-- `storeCache` (lines 89-101): wrap the value with the current epoch
time and overwrite the key. -/
def storeCache {α : Type} (st : Storage α) (now : ℤ) (key : String) (d : α) :
    Storage α :=
  fun k => if k = key then some (StoredEntry.wellFormed d now) else st k

/-- `getCache` (lines 103-117): miss on an absent key; fail open to
`null` when deserialization throws; lazily evict (remove the entry and
return `null`) when `now - timestamp > CACHE_TTL`; otherwise return the
stored data.  The result pairs the returned value with the storage state
after the call. -/
def getCache {α : Type} (st : Storage α) (now : ℤ) (key : String) :
    Option α × Storage α :=
  match st key with
  | none => (none, st)
  | some StoredEntry.malformed => (none, st)
  | some (StoredEntry.wellFormed d t) =>
    if now - t > CACHE_TTL then
      (none, fun k => if k = key then none else st k)
    else (some d, st)

/-! ## Orchestrator, the revision the app imports
(src/app/services/stockService.tsx lines 449-567) -/

/-- What each external fetch would return, per company: the market
statistics (`none` models a failed/insufficient fetch — `fetchStockData`
catches internally and resolves `null`), the news items (each carrying an
optional `summary`), the article items (each carrying a `text`), and the
narrative rationale (`generateSentimentRationale` catches internally and
always resolves to a string). -/
structure Env where
  stock : String → String → Option StockStats
  news : String → List (Option String)
  articles : String → List String
  rationale : String → ℚ → String
  timestamp : String

/-- `news.map(a => a.summary?.substring(0, 100) || "").filter(t => t.length > 0)`
(lines 469-471). -/
def newsTextsOf (news : List (Option String)) : List String :=
  (news.map (fun s => (s.map (fun t => t.take 100)).getD "")).filter
    (fun t => t.length > 0)

/-- `articles.map(a => a.text || "").filter(t => t.length > 0)`
(lines 473-475); also the shape of the tweet-text extraction in the
part_008 revision. -/
def articleTextsOf (articles : List String) : List String :=
  articles.filter (fun t => t.length > 0)

/-- The `details` object of a recommendation (lines 532-539). -/
structure RecDetails where
  stock_data : StockStats
  sentiment : Sentiment
  components : Components
  company : String
  articles : List String
  sentiment_rationale : String
deriving Repr, DecidableEq

/-- A per-company `Recommendation`, generic in the shape of `details`
(the two revisions put slightly different objects there). -/
structure Recommendation (D : Type) where
  company : String
  score : ℚ
  details : D
deriving Repr, DecidableEq

/-- The response envelope.  The error branches of both revisions build
`{status, message, recommendations}` with no `metadata` key, hence the
optional metadata fields. -/
structure RecommendationResponse (D : Type) where
  status : String
  recommendations : List (Recommendation D)
  message : Option String
  metadataTimestamp : Option String
  metadataHorizon : Option String
deriving Repr, DecidableEq

/-- `recommendations.sort((a, b) => b.score - a.score)`: descending by
score (stable, as JavaScript engines implement it). -/
def sortByScoreDesc {D : Type} (l : List (Recommendation D)) :
    List (Recommendation D) :=
  l.mergeSort (fun a b => decide (b.score ≤ a.score))

/-- The per-company pipeline of the app revision (lines 459-545): drop
the company when stats are missing, when news and articles are both
empty, or when no non-empty text survives extraction; otherwise analyze,
score under the horizon weights, and round to one decimal. -/
def processCompany (env : Env) (horizon company : String) :
    Option (Recommendation RecDetails) :=
  match env.stock company horizon with
  | none => none
  | some stockData =>
    let news := env.news company
    let articles := env.articles company
    if news.isEmpty && articles.isEmpty then none
    else
      let allTexts := newsTextsOf news ++ articleTextsOf articles
      if allTexts.isEmpty then none
      else
        let sentiment := analyzeArticles allTexts
        let sScore := sentimentScoreOf sentiment
        let comps := componentsOf stockData sScore
        some { company := company
               score := roundTo1 (weightedSum comps (weightsFor horizon))
               details := { stock_data := stockData, sentiment := sentiment
                            components := comps, company := company
                            articles := articles
                            sentiment_rationale := env.rationale company sScore } }

/-- `getStockRecommendation` of the app revision (lines 449-567).  The
second component counts fetch-helper invocations (market data, news,
articles: three per company, fired by `Promise.all` before any gating);
input validation happens before any of them. -/
def getStockRecommendation (env : Env) (companies : List String)
    (horizon : String) : RecommendationResponse RecDetails × ℕ :=
  if companies.isEmpty then
    ({ status := "error", recommendations := []
       message := some "No valid companies provided"
       metadataTimestamp := none, metadataHorizon := none }, 0)
  else
    ({ status := "success"
       recommendations :=
         sortByScoreDesc ((companies.map (processCompany env horizon)).filterMap id)
       message := none
       metadataTimestamp := some env.timestamp
       metadataHorizon := some horizon }, 3 * companies.length)

/-! ## Orchestrator, part_008 revision (src/unnamed/part_008 lines 558-804)

This revision adds a third signal source (social posts), per-company
retry loops, a neutral-sentiment fallback when every signal source is
empty, and a batch-level error when no company succeeds.  The retry
loops re-invoke the same fetch helpers, so for a deterministic
environment they do not change the resulting values — only the number of
fetch invocations. -/

/-- Fetch environment of the part_008 revision. -/
structure EnvP8 where
  stock : String → String → Option StockStats
  news : String → List (Option String)
  articles : String → List String
  tweets : String → List String
  rationale : String → ℚ → String
  timestamp : String

/-- The `details` object of the part_008 revision (lines 762-770).  The
starvation-fallback branch builds its object without a `tweets` key
(lines 666-679); it is modelled with an empty list there. -/
structure RecDetailsP8 where
  stock_data : StockStats
  sentiment : Sentiment
  components : Components
  company : String
  articles : List String
  tweets : List String
  sentiment_rationale : String
deriving Repr, DecidableEq

/-- The per-company pipeline of the part_008 revision (lines 569-776).
When stats are present but news, articles and tweets are all empty, the
company is not dropped: it gets `sentiment_score = 50` exactly, the
neutral sentiment unit, reweighted components and a templated rationale
(lines 624-681).  Otherwise the normal scoring path runs (with no
empty-`allTexts` bailout, unlike the app revision). -/
def processCompanyP8 (env : EnvP8) (horizon company : String) :
    Option (Recommendation RecDetailsP8) :=
  match env.stock company horizon with
  | none => none
  | some stockData =>
    let news := env.news company
    let articles := env.articles company
    let tweets := env.tweets company
    if news.isEmpty && articles.isEmpty && tweets.isEmpty then
      let comps := componentsOf stockData 50
      let w : Weights :=
        if horizon = "short-term" then
          { recent_performance := 0.5, historical_growth := 0.3
            sentiment_score := 0.1, risk_factor := 0.1 }
        else
          { recent_performance := 0.2, historical_growth := 0.5
            sentiment_score := 0.1, risk_factor := 0.2 }
      some { company := company
             score := roundTo1 (weightedSum comps w)
             details := { stock_data := stockData
                          sentiment := ⟨1/2, 0, 0, 1, 1⟩
                          components := comps, company := company
                          articles := [], tweets := []
                          sentiment_rationale :=
                            "No recent news available for " ++ company ++
                              ". Analysis based solely on technical indicators." } }
    else
      let allTexts :=
        newsTextsOf news ++ articleTextsOf articles ++ articleTextsOf tweets
      let sentiment := analyzeArticles allTexts
      let sScore := sentimentScoreOf sentiment
      let comps := componentsOf stockData sScore
      some { company := company
             score := roundTo1 (weightedSum comps (weightsFor horizon))
             details := { stock_data := stockData, sentiment := sentiment
                          components := comps, company := company
                          articles := articles, tweets := tweets
                          sentiment_rationale := env.rationale company sScore } }

/-- Fetch-helper invocations for one company in the part_008 revision:
the stock loop makes 3 attempts when the fetch keeps resolving `null`
(`MAX_RETRIES = 2`), and the signal loop makes 3 rounds of 3 parallel
fetches when all three sources keep coming back empty. -/
def companyFetchCountP8 (env : EnvP8) (horizon company : String) : ℕ :=
  (if (env.stock company horizon).isNone then 3 else 1) +
    3 * (if (env.news company).isEmpty && (env.articles company).isEmpty &&
            (env.tweets company).isEmpty then 3 else 1)

/-- `getStockRecommendation` of the part_008 revision (lines 558-804):
same validation, but a batch in which every company failed is reported
as an error (lines 779-785). -/
def getStockRecommendationP8 (env : EnvP8) (companies : List String)
    (horizon : String) : RecommendationResponse RecDetailsP8 × ℕ :=
  if companies.isEmpty then
    ({ status := "error", recommendations := []
       message := some "No valid companies provided"
       metadataTimestamp := none, metadataHorizon := none }, 0)
  else
    let valid := (companies.map (processCompanyP8 env horizon)).filterMap id
    let count := (companies.map (companyFetchCountP8 env horizon)).sum
    if valid.isEmpty then
      ({ status := "error", recommendations := []
         message := some "Could not generate recommendations for any of the provided stocks"
         metadataTimestamp := none, metadataHorizon := none }, count)
    else
      ({ status := "success"
         recommendations := sortByScoreDesc valid
         message := none
         metadataTimestamp := some env.timestamp
         metadataHorizon := some horizon }, count)

/-! ## Helper lemmas -/

theorem foldl_addSentiment (l : List Sentiment) (acc : Sentiment) :
    l.foldl
      (fun acc cur =>
        (⟨acc.score + cur.score, acc.positive + cur.positive,
          acc.negative + cur.negative, acc.neutral + cur.neutral,
          acc.total + cur.total⟩ : Sentiment)) acc =
      ⟨acc.score + (l.map Sentiment.score).sum,
       acc.positive + (l.map Sentiment.positive).sum,
       acc.negative + (l.map Sentiment.negative).sum,
       acc.neutral + (l.map Sentiment.neutral).sum,
       acc.total + (l.map Sentiment.total).sum⟩ := by
  induction l generalizing acc with
  | nil => simp
  | cons x xs ih => simp [ih, add_assoc]

theorem sumSentiments_eq (l : List Sentiment) :
    sumSentiments l =
      ⟨(l.map Sentiment.score).sum, (l.map Sentiment.positive).sum,
       (l.map Sentiment.negative).sum, (l.map Sentiment.neutral).sum,
       (l.map Sentiment.total).sum⟩ := by
  simpa using foldl_addSentiment l ⟨0, 0, 0, 0, 0⟩

theorem analyzeSentiment_classification (t : String) :
    (analyzeSentiment t).total = 1
  ∧ (analyzeSentiment t).positive + (analyzeSentiment t).negative +
      (analyzeSentiment t).neutral = 1
  ∧ ((analyzeSentiment t).positive = 1 ↔ 3/5 < (analyzeSentiment t).score)
  ∧ ((analyzeSentiment t).negative = 1 ↔ (analyzeSentiment t).score < 2/5)
  ∧ ((analyzeSentiment t).neutral = 1 ↔
       2/5 ≤ (analyzeSentiment t).score ∧ (analyzeSentiment t).score ≤ 3/5)
  ∧ (positiveHits t + negativeHits t = 0 →
       (analyzeSentiment t).score = 1/2 ∧ (analyzeSentiment t).neutral = 1) := by
  by_cases h : positiveHits t + negativeHits t = 0
  · simp [analyzeSentiment, h]
    norm_num
  · simp only [analyzeSentiment]
    rw [if_neg h]
    refine ⟨rfl, ?_, ?_, ?_, ?_, fun hc => absurd hc h⟩
    · split_ifs <;> simp_all <;> linarith
    · split_ifs <;> simp_all
    · split_ifs <;> simp_all
    · split_ifs <;> simp_all

theorem analyzeSentiment_bucket_le_total (t : String) :
    (analyzeSentiment t).positive + (analyzeSentiment t).negative ≤
      (analyzeSentiment t).total := by
  by_cases h : positiveHits t + negativeHits t = 0
  · simp [analyzeSentiment, h]
  · simp only [analyzeSentiment]
    rw [if_neg h]
    split_ifs <;> simp_all <;> linarith

theorem sum_buckets_le_sum_total (l : List String) :
    (l.map (fun t => (analyzeSentiment t).positive)).sum +
      (l.map (fun t => (analyzeSentiment t).negative)).sum ≤
      (l.map (fun t => (analyzeSentiment t).total)).sum := by
  induction l with
  | nil => simp
  | cons x xs ih =>
    have hx := analyzeSentiment_bucket_le_total x
    simp only [List.map_cons, List.sum_cons]
    omega

theorem sentimentScoreOf_bounds (s : Sentiment)
    (h : s.positive + s.negative ≤ s.total) :
    0 ≤ sentimentScoreOf s ∧ sentimentScoreOf s ≤ 100 := by
  unfold sentimentScoreOf
  by_cases h0 : s.total = 0
  · simp [h0]
    norm_num
  · rw [if_pos h0]
    have hT : (0 : ℚ) < (s.total : ℚ) := by
      exact_mod_cast Nat.pos_of_ne_zero h0
    have hp : (s.positive : ℚ) ≤ (s.total : ℚ) := by
      exact_mod_cast le_trans (Nat.le_add_right _ _) h
    have hn : (s.negative : ℚ) ≤ (s.total : ℚ) := by
      exact_mod_cast le_trans (Nat.le_add_left _ _) h
    have hp0 : (0 : ℚ) ≤ (s.positive : ℚ) := by positivity
    have hn0 : (0 : ℚ) ≤ (s.negative : ℚ) := by positivity
    have h1 : (s.positive : ℚ) / (s.total : ℚ) ≤ 1 := (div_le_one hT).mpr hp
    have h2 : (s.negative : ℚ) / (s.total : ℚ) ≤ 1 := (div_le_one hT).mpr hn
    have h3 : (0 : ℚ) ≤ (s.positive : ℚ) / (s.total : ℚ) := by positivity
    have h4 : (0 : ℚ) ≤ (s.negative : ℚ) / (s.total : ℚ) := by positivity
    constructor <;> nlinarith

/-! ## Claim theorems -/

/-- C2: for every horizon (and fetch environment), calling
`getStockRecommendation` with the empty company array resolves to
exactly `{status: "error", recommendations: [], message: "No valid
companies provided"}` (and no metadata), performing zero fetch-helper
invocations — no market-data or signal-source network calls.  (A
non-array input is not representable in the typed embedding; the empty
array is the representable invalid input.) -/
theorem getStockRecommendation_empty_input (env : Env) (horizon : String) :
    getStockRecommendation env [] horizon =
      ({ status := "error", recommendations := []
         message := some "No valid companies provided"
         metadataTimestamp := none, metadataHorizon := none }, 0) := rfl

/-- C3 counterexample: the sentiment analyzer applied to the empty
snippet list does not return the claimed aggregate
`{score: 0.5, positive: 0, negative: 0, neutral: 1, total: 1}` —
its early return carries `neutral = 0` and `total = 0`. -/
theorem analyzeArticles_empty_ne_neutral_unit :
    analyzeArticles [] ≠ ⟨1/2, 0, 0, 1, 1⟩ := by
  intro hc
  have h0 : (analyzeArticles []).total = 0 := rfl
  rw [hc] at h0
  exact one_ne_zero h0

/-- C3 amended: the sentiment analyzer applied to an empty snippet list
returns exactly `{score: 0.5, positive: 0, negative: 0, neutral: 0,
total: 0}`. -/
theorem analyzeArticles_empty_default :
    analyzeArticles [] = ⟨1/2, 0, 0, 0, 0⟩ := rfl

/-- C9: a `put` followed by a `get` within the TTL (5 minutes) returns
the originally stored value with the storage unchanged; a `get` after
more than TTL has elapsed returns `null` and deletes the entry (the key
no longer exists afterwards); and a `get` over an entry that fails to
deserialize returns `null` with the storage unchanged, rather than
propagating an error. -/
theorem cache_ttl_contract {α : Type} (st : Storage α) (key : String)
    (d : α) (putTime getTime : ℤ) :
    (getTime - putTime ≤ CACHE_TTL →
       getCache (storeCache st putTime key d) getTime key =
         (some d, storeCache st putTime key d))
  ∧ (getTime - putTime > CACHE_TTL →
       (getCache (storeCache st putTime key d) getTime key).1 = none
       ∧ (getCache (storeCache st putTime key d) getTime key).2 key = none)
  ∧ (∀ st0 : Storage α, st0 key = some StoredEntry.malformed →
       getCache st0 getTime key = (none, st0)) := by
  refine ⟨fun hle => ?_, fun hgt => ?_, fun st0 hmal => ?_⟩
  · simp [getCache, storeCache, not_lt.mpr hle]
  · constructor <;> simp [getCache, storeCache, hgt]
  · simp [getCache, hmal]

/-- C9 witness: a fresh entry is returned intact at exactly the TTL
boundary, and one millisecond later it is gone and evicted. -/
theorem cache_ttl_contract_witness :
    getCache (storeCache (fun _ => none : Storage ℕ) 0 "k" 7) 300000 "k" =
      (some 7, storeCache (fun _ => none : Storage ℕ) 0 "k" 7)
  ∧ (getCache (storeCache (fun _ => none : Storage ℕ) 0 "k" 7) 300001 "k").1 = none
  ∧ (getCache (storeCache (fun _ => none : Storage ℕ) 0 "k" 7) 300001 "k").2 "k" = none :=
  ⟨(cache_ttl_contract (fun _ => none) "k" 7 0 300000).1 (by decide),
   (cache_ttl_contract (fun _ => none) "k" 7 0 300001).2.1 (by decide)⟩

/-- C7: for a non-empty snippet list, the aggregate score is the
arithmetic mean of the per-snippet scores (not recomputed from bucket
counts), each bucket count is the sum of the per-snippet bucket counts,
and each snippet contributes exactly one unit to exactly one bucket:
per-snippet `total = 1`, positive iff `score > 0.6`, negative iff
`score < 0.4`, neutral otherwise, and neutral with score `0.5` on zero
lexicon hits. -/
theorem analyzeArticles_aggregation (articles : List String)
    (h : articles ≠ []) :
    ((analyzeArticles articles).score =
        ((articles.map (fun t => (analyzeSentiment t).score)).sum) /
          (articles.length : ℚ))
  ∧ (analyzeArticles articles).positive =
      (articles.map (fun t => (analyzeSentiment t).positive)).sum
  ∧ (analyzeArticles articles).negative =
      (articles.map (fun t => (analyzeSentiment t).negative)).sum
  ∧ (analyzeArticles articles).neutral =
      (articles.map (fun t => (analyzeSentiment t).neutral)).sum
  ∧ (analyzeArticles articles).total =
      (articles.map (fun t => (analyzeSentiment t).total)).sum
  ∧ ∀ t : String,
      (analyzeSentiment t).total = 1
      ∧ (analyzeSentiment t).positive + (analyzeSentiment t).negative +
          (analyzeSentiment t).neutral = 1
      ∧ ((analyzeSentiment t).positive = 1 ↔ 3/5 < (analyzeSentiment t).score)
      ∧ ((analyzeSentiment t).negative = 1 ↔ (analyzeSentiment t).score < 2/5)
      ∧ ((analyzeSentiment t).neutral = 1 ↔
           2/5 ≤ (analyzeSentiment t).score ∧ (analyzeSentiment t).score ≤ 3/5)
      ∧ (positiveHits t + negativeHits t = 0 →
           (analyzeSentiment t).score = 1/2 ∧ (analyzeSentiment t).neutral = 1) := by
  have hne : articles.isEmpty = false := by
    simpa [List.isEmpty_iff] using h
  refine ⟨?_, ?_, ?_, ?_, ?_, fun t => analyzeSentiment_classification t⟩
  all_goals
    simp [analyzeArticles, hne, sumSentiments_eq, List.map_map, Function.comp_def]

/-- C7 witness: the aggregate of a concrete singleton list averages the
per-snippet scores. -/
theorem analyzeArticles_aggregation_witness :
    (analyzeArticles ["profit"]).score =
      (((["profit"] : List String).map (fun t => (analyzeSentiment t).score)).sum) /
        ((["profit"] : List String).length : ℚ) :=
  (analyzeArticles_aggregation ["profit"] (by simp)).1

/-- C10 (implicit): every aggregate the analyzer produces satisfies
`positive + negative ≤ total` (already per snippet), and consequently
the downstream sentiment-score component
`50 + (positive/total - negative/total) * 50` (or `50` when
`total = 0`) always lies in `[0, 100]` even though no clamp is applied
to it. -/
theorem analyzer_sentiment_score_bounds :
    (∀ t : String,
       (analyzeSentiment t).positive + (analyzeSentiment t).negative ≤
         (analyzeSentiment t).total)
  ∧ (∀ l : List String,
       (analyzeArticles l).positive + (analyzeArticles l).negative ≤
         (analyzeArticles l).total)
  ∧ (∀ l : List String,
       0 ≤ sentimentScoreOf (analyzeArticles l) ∧
         sentimentScoreOf (analyzeArticles l) ≤ 100) := by
  have hagg : ∀ l : List String,
      (analyzeArticles l).positive + (analyzeArticles l).negative ≤
        (analyzeArticles l).total := by
    intro l
    by_cases hl : l.isEmpty
    · simp [analyzeArticles, hl]
    · have := sum_buckets_le_sum_total l
      simp [analyzeArticles, hl, sumSentiments_eq, List.map_map,
        Function.comp_def] at this ⊢
      exact this
  exact ⟨analyzeSentiment_bucket_le_total, hagg,
    fun l => sentimentScoreOf_bounds _ (hagg l)⟩

/-- C1: every recommendation the per-company pipeline returns carries as
its score the horizon-weighted sum of the four component scores, rounded
to one decimal place — weights `0.4/0.2/0.3/0.1` for `"short-term"` and
`0.2/0.4/0.2/0.2` for any other horizon; in particular, for stats
`{recentGrowth: 10, historicalGrowth: 25, volatility: 0.2, dataPoints: 30}`
and sentiment `{score: 0.6, positive: 6, negative: 2, neutral: 2,
total: 10}` under `"short-term"`, the components are `75, 75, 70, 20`
and the composite score is exactly `68.0`. -/
theorem composite_score_contract :
    (∀ (env : Env) (horizon company : String) (r : Recommendation RecDetails),
       processCompany env horizon company = some r →
         r.score = compositeScore r.details.stock_data r.details.sentiment horizon)
  ∧ (∀ (stats : StockStats) (s : Sentiment) (horizon : String),
       compositeScore stats s horizon =
         roundTo1
           ((componentsOf stats (sentimentScoreOf s)).recent_performance *
               (if horizon = "short-term" then 0.4 else 0.2)
             + (componentsOf stats (sentimentScoreOf s)).historical_growth *
               (if horizon = "short-term" then 0.2 else 0.4)
             + (componentsOf stats (sentimentScoreOf s)).sentiment_score *
               (if horizon = "short-term" then 0.3 else 0.2)
             + (componentsOf stats (sentimentScoreOf s)).risk_factor *
               (if horizon = "short-term" then 0.1 else 0.2)))
  ∧ componentsOf ⟨10, 25, 1/5, 30⟩ (sentimentScoreOf ⟨3/5, 6, 2, 2, 10⟩) =
      ⟨75, 75, 70, 20⟩
  ∧ compositeScore ⟨10, 25, 1/5, 30⟩ ⟨3/5, 6, 2, 2, 10⟩ "short-term" = 68 := by
  refine ⟨?_, ?_, ?_, ?_⟩
  · intro env horizon company r hr
    unfold processCompany at hr
    cases hstock : env.stock company horizon with
    | none => rw [hstock] at hr; exact absurd hr (by simp)
    | some stockData =>
      rw [hstock] at hr
      simp only [] at hr
      split at hr
      · exact absurd hr (by simp)
      · split at hr
        · exact absurd hr (by simp)
        · cases hr
          rfl
  · intro stats s horizon
    by_cases hh : horizon = "short-term" <;>
      simp [hh, compositeScore, weightedSum, weightsFor, zero_add]
  · simp [componentsOf, sentimentScoreOf]
    norm_num
  · simp [compositeScore, componentsOf, sentimentScoreOf, weightsFor,
      weightedSum, roundTo1, jsRound]
    norm_num [Int.floor_eq_iff]

/-- Concrete environment exercising the normal scoring path: valid
stats, one article with a positive snippet, no news. -/
def envScoring : Env :=
  { stock := fun _ _ => some ⟨10, 25, 1/5, 30⟩
    news := fun _ => []
    articles := fun _ => ["profit"]
    rationale := fun _ _ => "r"
    timestamp := "t" }

/-- C1 witness: the pipeline produces a recommendation for `envScoring`
whose score is the rounded weighted composite of its own components. -/
theorem composite_score_contract_witness :
    (77 : ℚ) = compositeScore ⟨10, 25, 1/5, 30⟩ ⟨1, 1, 0, 0, 1⟩ "short-term" := by
  have hsent : analyzeArticles ["profit"] = ⟨1, 1, 0, 0, 1⟩ := by
    have h1 : positiveHits "profit" = 1 := by decide
    have h2 : negativeHits "profit" = 0 := by decide
    simp [analyzeArticles, sumSentiments, analyzeSentiment, h1, h2]
    norm_num
  have hr : processCompany envScoring "short-term" "AAPL" =
      some ⟨"AAPL", 77,
        ⟨⟨10, 25, 1/5, 30⟩, ⟨1, 1, 0, 0, 1⟩, ⟨75, 75, 100, 20⟩, "AAPL",
         ["profit"], "r"⟩⟩ := by
    have htext : articleTextsOf ["profit"] = ["profit"] := by decide
    simp [processCompany, envScoring, newsTextsOf, htext, hsent,
      sentimentScoreOf, componentsOf, weightsFor, weightedSum, roundTo1, jsRound]
    norm_num [Int.floor_eq_iff]
  exact composite_score_contract.1 envScoring "short-term" "AAPL" _ hr

/-- C8 counterexample: the risk component has no upper clamp — a
volatility of `2` yields `risk_factor = 200`, outside `[0, 100]`, so not
all four component scores are clamped at both ends. -/
theorem risk_factor_not_clamped_above :
    (componentsOf ⟨0, 0, 2, 30⟩ (sentimentScoreOf ⟨1/2, 0, 0, 1, 1⟩)).risk_factor = 200
  ∧ ¬ (componentsOf ⟨0, 0, 2, 30⟩ (sentimentScoreOf ⟨1/2, 0, 0, 1, 1⟩)).risk_factor ≤ 100 := by
  have h : (componentsOf ⟨0, 0, 2, 30⟩ (sentimentScoreOf ⟨1/2, 0, 0, 1, 1⟩)).risk_factor = 200 := by
    simp [componentsOf]
    norm_num
  refine ⟨h, ?_⟩
  rw [h]
  norm_num

/-- C8 amended: `recentPerformance` and `historicalGrowth` lie in
`[0, 100]`, clamped at both ends — exactly `0` or `100` whenever the raw
growth is outside `[-20, 20]` resp. `[-50, 50]`; `sentimentScore` lies in
`[0, 100]` for every aggregate with `positive + negative ≤ total` (which
the analyzer guarantees); `riskFactor` is clamped only from below at `0`
and can exceed `100`. -/
theorem components_clamping (stats : StockStats) (s : Sentiment)
    (hs : s.positive + s.negative ≤ s.total) :
    (0 ≤ (componentsOf stats (sentimentScoreOf s)).recent_performance
      ∧ (componentsOf stats (sentimentScoreOf s)).recent_performance ≤ 100)
  ∧ (0 ≤ (componentsOf stats (sentimentScoreOf s)).historical_growth
      ∧ (componentsOf stats (sentimentScoreOf s)).historical_growth ≤ 100)
  ∧ (0 ≤ (componentsOf stats (sentimentScoreOf s)).sentiment_score
      ∧ (componentsOf stats (sentimentScoreOf s)).sentiment_score ≤ 100)
  ∧ 0 ≤ (componentsOf stats (sentimentScoreOf s)).risk_factor
  ∧ (stats.recent_growth < -20 ∨ 20 < stats.recent_growth →
       (componentsOf stats (sentimentScoreOf s)).recent_performance = 0
       ∨ (componentsOf stats (sentimentScoreOf s)).recent_performance = 100)
  ∧ (stats.historical_growth < -50 ∨ 50 < stats.historical_growth →
       (componentsOf stats (sentimentScoreOf s)).historical_growth = 0
       ∨ (componentsOf stats (sentimentScoreOf s)).historical_growth = 100) := by
  have er : (stats.recent_growth + 20) / 40 * 100 =
      stats.recent_growth * (5/2) + 50 := by ring
  have eh : (stats.historical_growth + 50) / 100 * 100 =
      stats.historical_growth + 50 := by ring
  refine ⟨⟨?_, ?_⟩, ⟨?_, ?_⟩, sentimentScoreOf_bounds s hs, ?_, ?_, ?_⟩
  · exact le_min (le_max_right _ _) (by norm_num)
  · exact min_le_right _ _
  · exact le_min (le_max_right _ _) (by norm_num)
  · exact min_le_right _ _
  · exact le_max_left _ _
  · rintro (hlt | hgt)
    · left
      simp only [componentsOf, er]
      rw [max_eq_right (by linarith), min_eq_left (by norm_num)]
    · right
      simp only [componentsOf, er]
      rw [max_eq_left (by linarith), min_eq_right (by linarith)]
  · rintro (hlt | hgt)
    · left
      simp only [componentsOf, eh]
      rw [max_eq_right (by linarith), min_eq_left (by norm_num)]
    · right
      simp only [componentsOf, eh]
      rw [max_eq_left (by linarith), min_eq_right (by linarith)]

/-- C8 witness: the clamp facts at a concrete out-of-range input
(`recentGrowth = 30`, `historicalGrowth = -60`). -/
theorem components_clamping_witness :
    ((componentsOf ⟨30, -60, 1, 5⟩ (sentimentScoreOf ⟨1/2, 0, 0, 1, 1⟩)).recent_performance = 0
      ∨ (componentsOf ⟨30, -60, 1, 5⟩ (sentimentScoreOf ⟨1/2, 0, 0, 1, 1⟩)).recent_performance = 100)
  ∧ ((componentsOf ⟨30, -60, 1, 5⟩ (sentimentScoreOf ⟨1/2, 0, 0, 1, 1⟩)).historical_growth = 0
      ∨ (componentsOf ⟨30, -60, 1, 5⟩ (sentimentScoreOf ⟨1/2, 0, 0, 1, 1⟩)).historical_growth = 100) :=
  ⟨(components_clamping ⟨30, -60, 1, 5⟩ ⟨1/2, 0, 0, 1, 1⟩ (by norm_num)).2.2.2.2.1
     (Or.inr (by norm_num)),
   (components_clamping ⟨30, -60, 1, 5⟩ ⟨1/2, 0, 0, 1, 1⟩ (by norm_num)).2.2.2.2.2
     (Or.inl (by norm_num))⟩

/-- Concrete environment for the app revision: valid stats, every signal
source empty. -/
def envStarved : Env :=
  { stock := fun _ _ => some ⟨10, 25, 1/5, 30⟩
    news := fun _ => []
    articles := fun _ => []
    rationale := fun _ _ => "r"
    timestamp := "t" }

/-- C4 counterexample: in the revision the app imports, a company whose
market-statistics fetch succeeds but whose signal sources all return
empty sequences is dropped (`processCompany` yields `null`; the batch
result contains no recommendation for it), rather than falling back to a
neutral-sentiment recommendation. -/
theorem starved_company_dropped :
    processCompany envStarved "short-term" "AAPL" = none
  ∧ (getStockRecommendation envStarved ["AAPL"] "short-term").1.recommendations = [] := by
  constructor
  · simp [processCompany, envStarved]
  · simp [getStockRecommendation, processCompany, envStarved, sortByScoreDesc]

/-- The fallback recommendation hard-coded by the part_008 revision for
a totally starved company (lines 629-680). -/
def starvedRec (stats : StockStats) (horizon company : String) :
    Recommendation RecDetailsP8 :=
  let comps := componentsOf stats 50
  let w : Weights :=
    if horizon = "short-term" then
      { recent_performance := 0.5, historical_growth := 0.3
        sentiment_score := 0.1, risk_factor := 0.1 }
    else
      { recent_performance := 0.2, historical_growth := 0.5
        sentiment_score := 0.1, risk_factor := 0.2 }
  { company := company
    score := roundTo1 (weightedSum comps w)
    details := { stock_data := stats
                 sentiment := ⟨1/2, 0, 0, 1, 1⟩
                 components := comps, company := company
                 articles := [], tweets := []
                 sentiment_rationale :=
                   "No recent news available for " ++ company ++
                     ". Analysis based solely on technical indicators." } }

/-- C4 amended: the total-starvation fallback exists in the part_008
revision of the pipeline: a company with valid stats whose signal
sources are all empty still yields a valid recommendation there, with
the `sentiment_score` component exactly `50`, the neutral sentiment unit
`{score: 0.5, positive: 0, negative: 0, neutral: 1, total: 1}`, and the
deterministic rationale "No recent news available for <company>.
Analysis based solely on technical indicators."; in the revision the app
imports, such a company is instead dropped from the results. -/
theorem starvation_fallback (env : EnvP8) (horizon company : String)
    (stats : StockStats) (hstock : env.stock company horizon = some stats)
    (hnews : env.news company = []) (harts : env.articles company = [])
    (htweets : env.tweets company = []) :
    (processCompanyP8 env horizon company = some (starvedRec stats horizon company)
      ∧ (starvedRec stats horizon company).details.components.sentiment_score = 50
      ∧ (starvedRec stats horizon company).details.sentiment = ⟨1/2, 0, 0, 1, 1⟩
      ∧ (starvedRec stats horizon company).details.sentiment_rationale =
          "No recent news available for " ++ company ++
            ". Analysis based solely on technical indicators.")
  ∧ (∀ envA : Env, envA.stock company horizon = some stats →
       envA.news company = [] → envA.articles company = [] →
       processCompany envA horizon company = none) := by
  refine ⟨⟨?_, rfl, rfl, rfl⟩, ?_⟩
  · simp [processCompanyP8, hstock, hnews, harts, htweets, starvedRec]
  · intro envA hA hN hR
    simp [processCompany, hA, hN, hR]

/-- Concrete part_008 environment with valid stats and all-empty signal
sources. -/
def envStarvedP8 : EnvP8 :=
  { stock := fun _ _ => some ⟨10, 25, 1/5, 30⟩
    news := fun _ => []
    articles := fun _ => []
    tweets := fun _ => []
    rationale := fun _ _ => "r"
    timestamp := "t" }

/-- C4 witness: the fallback fires on `envStarvedP8` while the app
revision drops the same company under the same conditions. -/
theorem starvation_fallback_witness :
    processCompanyP8 envStarvedP8 "short-term" "AAPL" =
      some (starvedRec ⟨10, 25, 1/5, 30⟩ "short-term" "AAPL")
  ∧ processCompany envStarved "short-term" "AAPL" = none := by
  have h := starvation_fallback envStarvedP8 "short-term" "AAPL"
    ⟨10, 25, 1/5, 30⟩ rfl rfl rfl rfl
  exact ⟨h.1.1, h.2 envStarved rfl rfl rfl⟩

/-- Concrete environment in which every company fails (no market data). -/
def envAllFail : Env :=
  { stock := fun _ _ => none
    news := fun _ => []
    articles := fun _ => []
    rationale := fun _ _ => ""
    timestamp := "t" }

/-- C5 counterexample: in the revision the app imports, a non-empty
batch in which zero companies succeed still resolves with
`status = "success"` and an empty recommendation list — not the
error-status envelope the claim requires for a fully failed batch. -/
theorem zero_success_batch_not_error :
    (getStockRecommendation envAllFail ["AAPL"] "short-term").1.status = "success"
  ∧ (getStockRecommendation envAllFail ["AAPL"] "short-term").1.recommendations = []
  ∧ (getStockRecommendation envAllFail ["AAPL"] "short-term").1.message = none := by
  refine ⟨?_, ?_, ?_⟩ <;>
    simp [getStockRecommendation, processCompany, envAllFail, sortByScoreDesc]

/-- C5 amended: `getStockRecommendation` always resolves to a well-formed
response and a single-company failure only omits that company.  In the
revision the app imports, the error-status envelope (message "No valid
companies provided") occurs exactly when input validation fails — a
fully failed batch still resolves with `status = "success"` and zero
recommendations; only the part_008 revision additionally reports an
error when the entire batch yields no successful company. -/
theorem error_status_characterization (env : Env) (envP : EnvP8)
    (companies : List String) (horizon : String) :
    ((getStockRecommendation env companies horizon).1.status = "error" ↔
       companies = [])
  ∧ (companies = [] →
       (getStockRecommendation env companies horizon).1.message =
         some "No valid companies provided")
  ∧ (∀ r, r ∈ (getStockRecommendation env companies horizon).1.recommendations →
       ∃ c, c ∈ companies ∧ processCompany env horizon c = some r)
  ∧ ((getStockRecommendationP8 envP companies horizon).1.status = "error" ↔
       companies = [] ∨ ∀ c ∈ companies, processCompanyP8 envP horizon c = none) := by
  by_cases hempty : companies.isEmpty
  · rw [List.isEmpty_iff] at hempty
    subst hempty
    refine ⟨by simp [getStockRecommendation], fun _ => rfl, ?_, ?_⟩
    · intro r hr
      simp [getStockRecommendation, sortByScoreDesc] at hr
    · simp [getStockRecommendationP8]
  · have hne : companies ≠ [] := by
      simpa [List.isEmpty_iff] using hempty
    have hbe : companies.isEmpty = false := by
      simpa [List.isEmpty_iff] using hne
    refine ⟨?_, fun hc => absurd hc hne, ?_, ?_⟩
    · simp [getStockRecommendation, hbe]
      exact hne
    · intro r hr
      simp only [getStockRecommendation, hbe, Bool.false_eq_true, if_false,
        sortByScoreDesc, List.mem_mergeSort, List.mem_filterMap, List.mem_map,
        id_eq] at hr
      obtain ⟨o, ⟨c, hc, ho⟩, hor⟩ := hr
      exact ⟨c, hc, by rw [ho, hor]⟩
    · simp only [getStockRecommendationP8, hbe, Bool.false_eq_true, if_false]
      by_cases hval :
          ((companies.map (processCompanyP8 envP horizon)).filterMap id).isEmpty
      · rw [if_pos hval]
        refine Iff.intro (fun _ => Or.inr fun c hc => ?_) (fun _ => rfl)
        rw [List.isEmpty_iff, List.filterMap_eq_nil_iff] at hval
        simpa using hval _ (List.mem_map_of_mem _ hc)
      · rw [if_neg hval]
        simp only []
        constructor
        · intro h
          exact absurd h (by simp)
        · rintro (hc | hall)
          · exact absurd hc hne
          · exfalso
            apply hval
            rw [List.isEmpty_iff, List.filterMap_eq_nil_iff]
            intro o ho
            rw [List.mem_map] at ho
            obtain ⟨c, hc, rfl⟩ := ho
            simp [hall c hc]

/-- Concrete part_008 environment in which every company fails. -/
def envP8AllFail : EnvP8 :=
  { stock := fun _ _ => none
    news := fun _ => []
    articles := fun _ => []
    tweets := fun _ => []
    rationale := fun _ _ => ""
    timestamp := "t" }

/-- C5 witness: on the empty batch the app revision reports the
validation message, and on a fully failed part_008 batch the error
status holds. -/
theorem error_status_characterization_witness :
    (getStockRecommendation envAllFail [] "short-term").1.message =
      some "No valid companies provided"
  ∧ (getStockRecommendationP8 envP8AllFail ["AAPL"] "short-term").1.status = "error" :=
  ⟨(error_status_characterization envAllFail envP8AllFail [] "short-term").2.1 rfl,
   (error_status_characterization envAllFail envP8AllFail ["AAPL"] "short-term").2.2.2.mpr
     (Or.inr fun _ _ => rfl)⟩

/-- C6: the market-data fetch returns `null` exactly when the provider
response is structurally invalid or fewer than 5 valid (non-null)
closing prices remain after filtering; otherwise it returns statistics
with `recentGrowth = (close[last] / close[last - lookback] - 1) * 100`
for `lookback = min(5, N - 1)`, `historicalGrowth = (close[last] /
close[0] - 1) * 100`, `volatility` the population standard deviation of
consecutive returns times `sqrt(252)`, and `dataPoints` the number of
valid closes. -/
theorem fetchStockData_contract (resp : Option (List (Option ℚ))) :
    (fetchStockData resp = none ↔
       resp = none ∨ ∃ raw, resp = some raw ∧ validCloseCount raw < 5)
  ∧ (∀ raw, resp = some raw → 5 ≤ validCloseCount raw →
       fetchStockData resp =
         some { recent_growth := specRecentGrowth (raw.filterMap id)
                historical_growth := specHistoricalGrowth (raw.filterMap id)
                volatility := specVolatility (raw.filterMap id)
                data_points := validCloseCount raw }) := by
  cases resp with
  | none =>
    refine ⟨by simp [fetchStockData], ?_⟩
    intro raw hr
    exact absurd hr (by simp)
  | some raw =>
    have hlen : (raw.filterMap id).length = validCloseCount raw :=
      filterMap_id_length_eq_validCloseCount raw
    by_cases h5 : (raw.filterMap id).length < 5
    · have hfd : fetchStockData (some raw) = none := by
        simp [fetchStockData, if_pos h5]
      refine ⟨?_, ?_⟩
      · rw [hfd]
        exact iff_of_true rfl (Or.inr ⟨raw, rfl, hlen ▸ h5⟩)
      · intro raw' hr' hcnt
        cases hr'
        exact absurd hcnt (by omega)
    · have hfd : fetchStockData (some raw) =
          some (processStockData (raw.filterMap id)) := by
        simp [fetchStockData, if_neg h5]
      refine ⟨?_, ?_⟩
      · rw [hfd]
        constructor
        · intro hc
          exact absurd hc (by simp)
        · rintro (hc | ⟨raw', hr', hc'⟩)
          · exact absurd hc (by simp)
          · cases hr'
            exact absurd hc' (by omega)
      · intro raw' hr' hcnt
        cases hr'
        rw [hfd]
        congr 1
        have hidx : validCloseCount raw - 5 ⊓ (validCloseCount raw - 1) - 1 =
            validCloseCount raw - 1 - 5 ⊓ (validCloseCount raw - 1) := by omega
        simp only [processStockData, specRecentGrowth, specHistoricalGrowth,
          specLookback, calculateVolatility_eq_spec, hlen, hidx]

/-- C6 witness: a concrete response with one null point and five valid
closes passes the gate and yields the spec-side statistics. -/
theorem fetchStockData_contract_witness :
    fetchStockData (some [some 1, some 2, none, some 3, some 4, some 5]) =
      some { recent_growth :=
               specRecentGrowth
                 (([some 1, some 2, none, some 3, some 4, some 5] :
                   List (Option ℚ)).filterMap id)
             historical_growth :=
               specHistoricalGrowth
                 (([some 1, some 2, none, some 3, some 4, some 5] :
                   List (Option ℚ)).filterMap id)
             volatility :=
               specVolatility
                 (([some 1, some 2, none, some 3, some 4, some 5] :
                   List (Option ℚ)).filterMap id)
             data_points :=
               validCloseCount [some 1, some 2, none, some 3, some 4, some 5] } :=
  (fetchStockData_contract (some [some 1, some 2, none, some 3, some 4, some 5])).2
    [some 1, some 2, none, some 3, some 4, some 5] rfl (by decide)
